import Mathlib

/-!
Verification of the documentation-build configuration `src/docs/conf.py`
of the lancedb-c repository.

The module is a straight-line sequence of top-level assignments executed
once at documentation-build start.  Its only input is the process
environment (the single read `os.environ.get('DOXYGEN_XML_DIR', '../xml')`),
so we embed the whole module as a pure total function `load` from the
environment to a record `Config` holding one field per module-level binding.
-/

namespace LanceDBCDocs

/-- The process environment as seen through `os.environ`: a partial map from
variable names to string values (`none` means the variable is unset). -/
def Env : Type := String → Option String

/-- Embedding of Python `os.environ.get(key, default)`: the variable's value
when it is set (even when set to the empty string), the default otherwise. -/
def environGet (env : Env) (key default : String) : String :=
  (env key).getD default

/-- The `html_theme_options` dictionary of `src/docs/conf.py`. -/
structure ThemeOptions where
  navigation_depth : Nat
  collapse_navigation : Bool
  sticky_navigation : Bool
  includehidden : Bool
  deriving DecidableEq, Repr

/-- The Build Configuration: one field per top-level binding of
`src/docs/conf.py`.  Python dictionaries are embedded as association
lists in their source order. -/
structure Config where
  project : String
  copyright : String
  author : String
  release : String
  extensions : List String
  xml_dir : String
  breathe_projects : List (String × String)
  breathe_default_project : String
  templates_path : List String
  exclude_patterns : List String
  html_theme : String
  html_static_path : List String
  html_theme_options : ThemeOptions
  intersphinx_mapping : List (String × String × Option String)
  deriving DecidableEq, Repr

/-- The Load operation: module-level execution of `src/docs/conf.py` as a
pure function of the process environment.  Every right-hand side is the
literal from the source; the only environment read is
`os.environ.get('DOXYGEN_XML_DIR', '../xml')`. -/
def load (env : Env) : Config :=
  let xml_dir := environGet env ("DOXYGEN_XML_DIR") ("../xml")
  { project := "LanceDB C API"
    copyright := "2025, The LanceDB Authors"
    author := "The LanceDB Authors"
    release := "0.1.0"
    extensions :=
      ["breathe", "sphinx.ext.autodoc", "sphinx.ext.intersphinx",
       "sphinx.ext.viewcode"]
    xml_dir := xml_dir
    breathe_projects := [("LanceDB", xml_dir)]
    breathe_default_project := "LanceDB"
    templates_path := ["_templates"]
    exclude_patterns := ["_build", "Thumbs.db", ".DS_Store"]
    html_theme := "sphinx_rtd_theme"
    html_static_path := ["_static"]
    html_theme_options :=
      { navigation_depth := 4
        collapse_navigation := false
        sticky_navigation := true
        includehidden := true }
    intersphinx_mapping := [("python", "https://docs.python.org/3", none)] }

/-- The sequence of top-level assignment targets of `src/docs/conf.py`, in
source order: the module consists of exactly these assignment statements
(plus the `import os` line), with no loops, conditionals, deletions or calls
that could reassign a name. -/
def assignmentTargets : List String :=
  ["project", "copyright", "author", "release", "extensions", "xml_dir",
   "breathe_projects", "breathe_default_project", "templates_path",
   "exclude_patterns", "html_theme", "html_static_path",
   "html_theme_options", "intersphinx_mapping"]

/-- The field names of the Build Configuration record grouped as the spec
describes them: identity fields, extension list, source-mapping,
presentation settings, interoperability mapping. -/
def configFields : List String :=
  ["project", "copyright", "author", "release",
   "extensions",
   "xml_dir", "breathe_projects", "breathe_default_project",
   "templates_path", "exclude_patterns", "html_theme", "html_static_path",
   "html_theme_options",
   "intersphinx_mapping"]

/-- An environment in which no variable is set. -/
def envUnset : Env := fun _ => none

/-- An environment in which DOXYGEN_XML_DIR is set to the empty string and
nothing else is set. -/
def envEmptyVar : Env :=
  fun k => if k = "DOXYGEN_XML_DIR" then some "" else none

/-- An environment in which DOXYGEN_XML_DIR is set to a sample path with
surrounding whitespace (to observe that no trimming happens). -/
def envSample : Env :=
  fun k => if k = "DOXYGEN_XML_DIR" then some (" /build/xml ") else none

end LanceDBCDocs

namespace LanceDBCDocs

/-- C1: when DOXYGEN_XML_DIR is unset, Load resolves the source-mapping
directory stored in the breathe projects mapping to the default relative
path `../xml`. -/
theorem xml_dir_defaults_when_unset (env : Env)
    (h : env ("DOXYGEN_XML_DIR") = none) :
    (load env).xml_dir = "../xml" ∧
    List.lookup ("LanceDB") (load env).breathe_projects = some ("../xml") := by
  constructor
  · show environGet env ("DOXYGEN_XML_DIR") ("../xml") = "../xml"
    simp [environGet, h]
  · show List.lookup ("LanceDB")
      [("LanceDB", environGet env ("DOXYGEN_XML_DIR") ("../xml"))]
        = some ("../xml")
    simp [environGet, h, List.lookup]

/-- Witness for C1 at the concrete all-unset environment. -/
theorem xml_dir_defaults_when_unset_witness :
    (load envUnset).xml_dir = "../xml" ∧
    List.lookup ("LanceDB") (load envUnset).breathe_projects
      = some ("../xml") :=
  xml_dir_defaults_when_unset envUnset rfl

/-- C2: when DOXYGEN_XML_DIR is set to a value V, the resolved
source-mapping directory equals V exactly, with no normalization or
trimming applied. -/
theorem xml_dir_equals_env_value (env : Env) (v : String)
    (h : env ("DOXYGEN_XML_DIR") = some v) :
    (load env).xml_dir = v ∧
    List.lookup ("LanceDB") (load env).breathe_projects = some v := by
  constructor
  · show environGet env ("DOXYGEN_XML_DIR") ("../xml") = v
    simp [environGet, h]
  · show List.lookup ("LanceDB")
      [("LanceDB", environGet env ("DOXYGEN_XML_DIR") ("../xml"))] = some v
    simp [environGet, h, List.lookup]

/-- Witness for C2 at a concrete environment whose value carries leading and
trailing spaces, which survive untouched. -/
theorem xml_dir_equals_env_value_witness :
    (load envSample).xml_dir = " /build/xml " ∧
    List.lookup ("LanceDB") (load envSample).breathe_projects
      = some (" /build/xml ") :=
  xml_dir_equals_env_value envSample (" /build/xml ") (by simp [envSample])

/-- C3: Load is a deterministic pure function of the environment.  Two runs
over environments that agree on the single variable the module reads produce
structurally identical configurations; in particular two runs over the same
environment coincide. -/
theorem load_deterministic (env₁ env₂ : Env)
    (h : env₁ ("DOXYGEN_XML_DIR") = env₂ ("DOXYGEN_XML_DIR")) :
    load env₁ = load env₂ := by
  unfold load environGet
  rw [h]

/-- Witness for C3: two loads over the all-unset environment agree. -/
theorem load_deterministic_witness : load envUnset = load envUnset :=
  load_deterministic envUnset envUnset rfl

/-- C4: after Load the extension list is non-empty and has no duplicate
entries, for every environment. -/
theorem extensions_nonempty_nodup (env : Env) :
    (load env).extensions ≠ [] ∧ (load env).extensions.Nodup := by
  have h : (load env).extensions =
      ["breathe", "sphinx.ext.autodoc", "sphinx.ext.intersphinx",
       "sphinx.ext.viewcode"] := rfl
  rw [h]
  decide

/-- C5: after Load the intersphinx mapping binds the external identifier
`python` to the base URL `https://docs.python.org/3` (with no local
inventory path), for every environment. -/
theorem intersphinx_python_url (env : Env) :
    List.lookup ("python") (load env).intersphinx_mapping
      = some ("https://docs.python.org/3", none) := by
  have h : (load env).intersphinx_mapping =
      [("python", "https://docs.python.org/3", none)] := rfl
  rw [h]
  decide

/-- C6: after Load the four project identity fields are all non-empty
strings, for every environment. -/
theorem identity_fields_nonempty (env : Env) :
    (load env).project ≠ "" ∧ (load env).copyright ≠ "" ∧
    (load env).author ≠ "" ∧ (load env).release ≠ "" := by
  have hp : (load env).project = "LanceDB C API" := rfl
  have hc : (load env).copyright = "2025, The LanceDB Authors" := rfl
  have ha : (load env).author = "The LanceDB Authors" := rfl
  have hr : (load env).release = "0.1.0" := rfl
  rw [hp, hc, ha, hr]
  decide

/-- C7: Load is total — for every environment it produces the fully
populated configuration, and the only environment-dependent part is the
source-directory fallback: every field other than `xml_dir` and the
`breathe_projects` entry built from it equals its value under the all-unset
environment. -/
theorem load_total_single_branch (env : Env) :
    load env =
      { load (fun _ => none) with
        xml_dir := environGet env ("DOXYGEN_XML_DIR") ("../xml")
        breathe_projects :=
          [("LanceDB", environGet env ("DOXYGEN_XML_DIR") ("../xml"))] } :=
  rfl

/-- C8: write-once invariant.  The module is a straight-line list of
assignments whose targets are pairwise distinct, so every Build
Configuration field — identity fields, extension list, source-mapping,
presentation settings, interoperability mapping — is assigned exactly once
and never reassigned. -/
theorem fields_assigned_exactly_once :
    assignmentTargets.Nodup ∧
    ∀ f ∈ configFields, assignmentTargets.count f = 1 := by
  decide

/-- C9: after Load the default-project identifier `LanceDB` is a key of the
breathe projects table, and that table has exactly one entry, for every
environment. -/
theorem breathe_projects_default_key (env : Env) :
    (load env).breathe_default_project = "LanceDB" ∧
    (load env).breathe_projects.length = 1 ∧
    ∃ d, List.lookup ((load env).breathe_default_project)
      (load env).breathe_projects = some d := by
  refine ⟨rfl, rfl, environGet env ("DOXYGEN_XML_DIR") ("../xml"), ?_⟩
  show List.lookup ("LanceDB")
    [("LanceDB", environGet env ("DOXYGEN_XML_DIR") ("../xml"))]
      = some (environGet env ("DOXYGEN_XML_DIR") ("../xml"))
  simp [List.lookup]

/-- C10: when DOXYGEN_XML_DIR is set to the empty string, Load resolves the
source-mapping directory to the empty string, not to the default `../xml`:
an empty value counts as set, so the fallback is not taken. -/
theorem xml_dir_empty_counts_as_set (env : Env)
    (h : env ("DOXYGEN_XML_DIR") = some "") :
    (load env).xml_dir = "" ∧ (load env).xml_dir ≠ "../xml" ∧
    List.lookup ("LanceDB") (load env).breathe_projects = some "" := by
  have hx : (load env).xml_dir = "" := by
    show environGet env ("DOXYGEN_XML_DIR") ("../xml") = ""
    simp [environGet, h]
  refine ⟨hx, ?_, ?_⟩
  · rw [hx]; decide
  · show List.lookup ("LanceDB")
      [("LanceDB", environGet env ("DOXYGEN_XML_DIR") ("../xml"))] = some ""
    simp [environGet, h, List.lookup]

/-- Witness for C10 at the concrete environment whose only binding maps
DOXYGEN_XML_DIR to the empty string. -/
theorem xml_dir_empty_counts_as_set_witness :
    (load envEmptyVar).xml_dir = "" ∧
    (load envEmptyVar).xml_dir ≠ "../xml" ∧
    List.lookup ("LanceDB") (load envEmptyVar).breathe_projects
      = some "" :=
  xml_dir_empty_counts_as_set envEmptyVar (by simp [envEmptyVar])

end LanceDBCDocs
